import Mathlib

/-!
Shallow embedding of the follower-evaluation core of the
sse-insta-audit-platform repository, together with theorems checking its
natural-language specification against the code.

Floating-point scores are modelled as rationals; Python exceptions are
modelled with `Except` / `Option`; the asynchronous retry decorator is
modelled as a pure function that returns the observable trace of one run
(outcome, on-retry callback invocations, backoff sleeps).
-/

/-- `EvaluationAction` from `app/constants.py`: possible actions for
follower evaluation. -/
inductive EvaluationAction where
  | KEEP
  | REMOVE
  | MONITOR
deriving DecidableEq

/-- `WorkflowController._determine_action` from `app/core/workflow.py`
(lines 99-116): maps an engagement score and a risk score to an action. -/
def determineAction (engagement_score risk_score : ℚ) : EvaluationAction :=
  if 7/10 ≤ engagement_score ∧ risk_score ≤ 3/10 then EvaluationAction.KEEP
  else if 1/2 ≤ engagement_score ∧ risk_score ≤ 1/2 then EvaluationAction.MONITOR
  else if engagement_score ≤ 3/10 ∨ 7/10 ≤ risk_score then EvaluationAction.REMOVE
  else EvaluationAction.MONITOR

/-- The low-engagement advisory string from `_generate_recommendations`. -/
def lowEngagementNotice : String := "Low engagement - Consider removing if no improvement"

/-- The high-risk advisory string from `_generate_recommendations`. -/
def highRiskNotice : String := "High risk - Monitor closely or remove"

/-- The privacy advisory string from `_generate_recommendations`. -/
def privateAccountNotice : String := "Private account - Consider impact on engagement"

/-- The inactivity advisory string from `_generate_recommendations`. -/
def inactiveAccountNotice : String := "Inactive account - May be safe to remove"

/-- Does the first character list begin the second one?  Building block for
Python's substring test `needle in hay`. -/
def charListBegins : List Char → List Char → Bool
  | [], _ => true
  | _ :: _, [] => false
  | c :: cs, d :: ds => c == d && charListBegins cs ds

/-- Does `needle` occur as a contiguous run inside `hay`?  Model of
Python's `needle in hay` on strings. -/
def occursIn (needle : List Char) : List Char → Bool
  | [] => charListBegins needle []
  | d :: ds => charListBegins needle (d :: ds) || occursIn needle ds

/-- Model of Python's `str.lower()` (ASCII case folding, which is all the
repository's advisory strings use). -/
def lowerChars (s : String) : List Char := s.toList.map Char.toLower

/-- `WorkflowController._generate_recommendations` from
`app/core/workflow.py` (lines 118-148): starts from an empty list and
conditionally appends each advisory string in the source's order. -/
def generateRecommendations (engagement_score risk_score : ℚ) (analysis : String) :
    List String :=
  let recommendations : List String := []
  let recommendations :=
    if engagement_score < 1/2 then recommendations ++ [lowEngagementNotice]
    else recommendations
  let recommendations :=
    if 1/2 < risk_score then recommendations ++ [highRiskNotice]
    else recommendations
  let recommendations :=
    if occursIn "private".toList (lowerChars analysis) then
      recommendations ++ [privateAccountNotice]
    else recommendations
  let recommendations :=
    if occursIn "inactive".toList (lowerChars analysis) then
      recommendations ++ [inactiveAccountNotice]
    else recommendations
  recommendations

/-- The score computation of `EngagementChecker.check_engagement` from
`app/core/engagement.py` (line 69): `sum(metrics.values()) / len(metrics)`
over the values of the metrics mapping.  Python raises `ZeroDivisionError`
when the mapping is empty; that exceptional outcome is modelled as `none`. -/
def engagementScore (vals : List ℚ) : Option ℚ :=
  if vals.length = 0 then none
  else some (vals.sum / (vals.length : ℚ))

/-- Observable outcome of one run of the retry wrapper: a Python `return`
(with `none` standing for Python `None`) or a raised exception. -/
inductive RetryOutcome (ε α : Type) where
  | returned : Option α → RetryOutcome ε α
  | raised : ε → RetryOutcome ε α
deriving DecidableEq

/-- Observable trace of one run of the retry wrapper: the final outcome,
the `(exception, attempt_number)` arguments the `on_retry` callback is
invoked with (when a callback is configured), and the `(attempt, delay)`
pairs of the backoff sleeps. -/
structure RetryTrace (ε α : Type) where
  outcome : RetryOutcome ε α
  onRetryCalls : List (ε × Nat)
  sleeps : List (Nat × ℚ)
deriving DecidableEq

/-- Configuration of `async_retry` from `app/utils/helpers.py`:
`max_attempts`, `base_delay`, `max_delay`, membership in the `exceptions`
tuple, the `retry_on_exception` and `retry_on_result` predicates, and the
stream of jitter values drawn by `random.uniform(0, 1)` (one per attempt
index). -/
structure RetryConfig (ε α : Type) where
  maxAttempts : Nat
  baseDelay : ℚ
  maxDelay : ℚ
  isCaught : ε → Bool
  retryOnExc : Option (ε → Bool)
  retryOnRes : Option (α → Bool)
  jitter : Nat → ℚ

/-- `_calculate_delay` from `app/utils/helpers.py` (lines 169-185):
exponential backoff with jitter, capped at `max_delay`. -/
def calculateDelay (attempt : Nat) (baseDelay maxDelay jitterVal : ℚ) : ℚ :=
  min (baseDelay * 2 ^ attempt + jitterVal) maxDelay

/-- The code after the `for` loop of `async_retry`'s wrapper (lines
156-164): return the last result if one was recorded, else re-raise the
last exception, else return `None`. -/
def retryFinish {ε α : Type} (lastExc : Option ε) (lastRes : Option α) :
    RetryTrace ε α :=
  match lastRes with
  | some r => ⟨RetryOutcome.returned (some r), [], []⟩
  | none =>
    match lastExc with
    | some e => ⟨RetryOutcome.raised e, [], []⟩
    | none => ⟨RetryOutcome.returned none, [], []⟩

/-- Record an `on_retry` callback invocation in front of a trace. -/
def addCall {ε α : Type} (c : ε × Nat) (t : RetryTrace ε α) : RetryTrace ε α :=
  { t with onRetryCalls := c :: t.onRetryCalls }

/-- Record a backoff sleep in front of a trace. -/
def addSleep {ε α : Type} (s : Nat × ℚ) (t : RetryTrace ε α) : RetryTrace ε α :=
  { t with sleeps := s :: t.sleeps }

/-- The `for attempt in range(max_attempts)` loop of `async_retry`'s
wrapper (`app/utils/helpers.py`, lines 100-164).  `fuel` is the number of
loop iterations left (`max_attempts - attempt`), so `fuel = 0` is loop
exit and `fuel > 0` after consuming this iteration means
`attempt < max_attempts - 1`.  `op attempt` is the awaited call of the
wrapped operation on this attempt; an `Except.error` not satisfying
`isCaught` is an exception that does not match the `except` clause and
propagates uncaught. -/
def retryLoop {ε α : Type} (cfg : RetryConfig ε α) (op : Nat → Except ε α) :
    Nat → Nat → Option ε → Option α → RetryTrace ε α
  | 0, _, lastExc, lastRes => retryFinish lastExc lastRes
  | fuel + 1, attempt, lastExc, lastRes =>
    match op attempt with
    | Except.ok result =>
      match cfg.retryOnRes with
      | some p =>
        if p result then
          if 0 < fuel then
            addSleep (attempt, calculateDelay attempt cfg.baseDelay cfg.maxDelay (cfg.jitter attempt))
              (retryLoop cfg op fuel (attempt + 1) lastExc (some result))
          else retryFinish lastExc (some result)
        else ⟨RetryOutcome.returned (some result), [], []⟩
      | none => ⟨RetryOutcome.returned (some result), [], []⟩
    | Except.error e =>
      if cfg.isCaught e then
        if (match cfg.retryOnExc with | some p => !(p e) | none => false) then
          ⟨RetryOutcome.raised e, [], []⟩
        else if 0 < fuel then
          addCall (e, attempt + 1)
            (addSleep (attempt, calculateDelay attempt cfg.baseDelay cfg.maxDelay (cfg.jitter attempt))
              (retryLoop cfg op fuel (attempt + 1) (some e) lastRes))
        else ⟨RetryOutcome.raised e, [], []⟩
      else ⟨RetryOutcome.raised e, [], []⟩

/-- One run of the `async_retry` wrapper: start the loop at attempt 0 with
no recorded exception or result. -/
def asyncRetry {ε α : Type} (cfg : RetryConfig ε α) (op : Nat → Except ε α) :
    RetryTrace ε α :=
  retryLoop cfg op cfg.maxAttempts 0 none none

/-- `ProfileMetrics` from `app/core/analyzer.py` (lines 18-25). -/
structure ProfileMetrics where
  authenticity_score : ℚ
  engagement_potential : ℚ
  risk_level : ℚ
  interaction_pattern : ℚ
  account_age : ℚ

/-- Keys of the `self.weights` dict set in `ProfileAnalyzer.__init__`. -/
inductive WeightKey where
  | activity
  | content
  | interaction
  | age
deriving DecidableEq

/-- The `self.weights` dict from `ProfileAnalyzer.__init__`
(`app/core/analyzer.py`, lines 37-42). -/
def weights : WeightKey → ℚ
  | WeightKey.activity => 3/10
  | WeightKey.content => 3/10
  | WeightKey.interaction => 1/5
  | WeightKey.age => 1/5

/-- `ProfileAnalyzer._calculate_risk_score` from `app/core/analyzer.py`
(lines 176-185): `np.mean` over the five weight-scaled terms built there
(note the `interaction` weight is applied to both `risk_level` and
`interaction_pattern`, and the mean divides the weighted sum by 5). -/
def calculateRiskScore (metrics : ProfileMetrics) : ℚ :=
  let scores : List ℚ :=
    [metrics.authenticity_score * weights WeightKey.activity,
     metrics.engagement_potential * weights WeightKey.content,
     metrics.risk_level * weights WeightKey.interaction,
     metrics.interaction_pattern * weights WeightKey.interaction,
     metrics.account_age * weights WeightKey.age]
  scores.sum / (scores.length : ℚ)

/-- `ProfileAnalyzer._gather_metrics` from `app/core/analyzer.py`
(lines 164-174): the stub returns fixed dummy data for every profile. -/
def gatherMetrics (_profile_id : String) : ProfileMetrics :=
  ⟨1/2, 3/5, 2/5, 4/5, 9/10⟩

/-- `ProfileAnalyzer.analyze_profile_risk` from `app/core/analyzer.py`
(lines 151-162). -/
def analyzeProfileRisk (profile_id : String) : ℚ :=
  calculateRiskScore (gatherMetrics profile_id)

/-- Modelled from the spec: section 4.3 describes the intended risk score
as a weighted mean of four sub-signals - activity, content, interaction
pattern, account age - with the fixed weights of `self.weights`; this
combination is not exercised by working code in the repository. -/
def specRiskWeightedMean (activity content interaction age : ℚ) : ℚ :=
  weights WeightKey.activity * activity +
  weights WeightKey.content * content +
  weights WeightKey.interaction * interaction +
  weights WeightKey.age * age

/-- `EngagementResult` from `app/core/engagement.py`, restricted to the
fields the pipeline reads (the score and the source metrics). -/
structure EngagementResult where
  score : ℚ
  metrics : List (String × ℚ)
deriving DecidableEq

/-- `ProfileResult` from `app/core/profile.py`. -/
structure ProfileResult where
  risk_score : ℚ
  analysis : String
  confidence : ℚ
deriving DecidableEq

/-- The result dictionary returned by `WorkflowController.audit_follower`
(`app/core/workflow.py`, lines 86-93), which carries the same fields as the
`AuditResult` dataclass. -/
structure AuditResult where
  username : String
  engagement_score : ℚ
  risk_score : ℚ
  action : EvaluationAction
  reason : String
  recommendations : List String
deriving DecidableEq

/-- A follower record as `audit_follower` consumes it: the `username` key
may be absent (`none`); the remaining free-form fields are only passed
through to the two evaluators, which are parameters of the model. -/
structure FollowerData where
  username : Option String
deriving DecidableEq

/-- `WorkflowController.audit_follower` from `app/core/workflow.py`
(lines 47-97), with the two retry-wrapped evaluators abstracted as
fallible functions.  `follower_data.get("username", "Unknown")` is the
`Option.getD`; the surrounding `try`/`except` logs and re-raises, so
evaluator errors pass through unchanged. -/
def auditFollower (checkEngagement : FollowerData → Except String EngagementResult)
    (analyzeProfile : FollowerData → Except String ProfileResult)
    (follower_data : FollowerData) : Except String AuditResult :=
  let username := follower_data.username.getD "Unknown"
  match checkEngagement follower_data with
  | Except.error e => Except.error e
  | Except.ok engagement_result =>
    match analyzeProfile follower_data with
    | Except.error e => Except.error e
    | Except.ok profile_result =>
      Except.ok
        { username := username
          engagement_score := engagement_result.score
          risk_score := profile_result.risk_score
          action := determineAction engagement_result.score profile_result.risk_score
          reason := profile_result.analysis
          recommendations :=
            generateRecommendations engagement_result.score profile_result.risk_score
              profile_result.analysis }

/-- `validate_required_fields` from `app/utils/helpers.py` (lines 247-259),
acting on the key set of the data dictionary: raises `ValueError` when a
required field is missing. -/
def validateRequiredFields (dataKeys requiredFields : List String) :
    Except String Unit :=
  let missingFields := requiredFields.filter (fun f => !(dataKeys.contains f))
  if missingFields = [] then Except.ok ()
  else Except.error ("Missing required fields: " ++ String.intercalate ", " missingFields)

/-- C1: the decision function tests its branches in the literal source
order with inclusive threshold comparisons - KEEP when `e >= 0.7` and
`r <= 0.3`, otherwise MONITOR when `e >= 0.5` and `r <= 0.5`, otherwise
REMOVE when `e <= 0.3` or `r >= 0.7`, otherwise MONITOR - and in
particular `decide(0.7,0.3)=KEEP`, `decide(0.69,0.3)=MONITOR`,
`decide(0.2,0.2)=REMOVE`, `decide(0.6,0.8)=REMOVE`,
`decide(0.6,0.6)=MONITOR`. -/
theorem determine_action_branch_order :
    (∀ e r : ℚ,
      ((7/10 ≤ e ∧ r ≤ 3/10) → determineAction e r = EvaluationAction.KEEP) ∧
      (¬(7/10 ≤ e ∧ r ≤ 3/10) → (1/2 ≤ e ∧ r ≤ 1/2) →
        determineAction e r = EvaluationAction.MONITOR) ∧
      (¬(7/10 ≤ e ∧ r ≤ 3/10) → ¬(1/2 ≤ e ∧ r ≤ 1/2) → (e ≤ 3/10 ∨ 7/10 ≤ r) →
        determineAction e r = EvaluationAction.REMOVE) ∧
      (¬(7/10 ≤ e ∧ r ≤ 3/10) → ¬(1/2 ≤ e ∧ r ≤ 1/2) → ¬(e ≤ 3/10 ∨ 7/10 ≤ r) →
        determineAction e r = EvaluationAction.MONITOR)) ∧
    determineAction (7/10) (3/10) = EvaluationAction.KEEP ∧
    determineAction (69/100) (3/10) = EvaluationAction.MONITOR ∧
    determineAction (1/5) (1/5) = EvaluationAction.REMOVE ∧
    determineAction (3/5) (4/5) = EvaluationAction.REMOVE ∧
    determineAction (3/5) (3/5) = EvaluationAction.MONITOR := by
  refine ⟨fun e r => ⟨?_, ?_, ?_, ?_⟩, ?_, ?_, ?_, ?_, ?_⟩
  · intro h1
    simp only [determineAction, if_pos h1]
  · intro h1 h2
    simp only [determineAction, if_neg h1, if_pos h2]
  · intro h1 h2 h3
    simp only [determineAction, if_neg h1, if_neg h2, if_pos h3]
  · intro h1 h2 h3
    simp only [determineAction, if_neg h1, if_neg h2, if_neg h3]
  all_goals norm_num [determineAction]

/-- Witness for C1: the first branch applied at the concrete pair
`(0.8, 0.1)`. -/
theorem determine_action_branch_order_witness :
    determineAction (4/5) (1/10) = EvaluationAction.KEEP :=
  (determine_action_branch_order.1 (4/5) (1/10)).1 ⟨by norm_num, by norm_num⟩

/-- Counterexample to C2: on the empty metrics mapping the score
computation of `check_engagement` divides by zero (modelled as `none`),
so it does not yield the score 0 the claim states. -/
theorem engagement_empty_mapping_raises :
    engagementScore [] = none ∧ engagementScore [] ≠ some 0 := by
  constructor <;> simp [engagementScore]

/-- C2 amended: for every nonempty metrics mapping with values in [0,1]
the engagement score is the arithmetic mean of the values and lies in
[0,1]; the empty mapping raises `ZeroDivisionError` instead of yielding
score 0. -/
theorem engagement_score_mean_bounds :
    (∀ vals : List ℚ, vals ≠ [] → (∀ v ∈ vals, 0 ≤ v ∧ v ≤ 1) →
      engagementScore vals = some (vals.sum / (vals.length : ℚ)) ∧
      0 ≤ vals.sum / (vals.length : ℚ) ∧ vals.sum / (vals.length : ℚ) ≤ 1) ∧
    engagementScore [] = none := by
  refine ⟨fun vals hne hb => ?_, by simp [engagementScore]⟩
  have hlen : vals.length ≠ 0 := fun h => hne (List.length_eq_zero.mp h)
  have hlpos : (0 : ℚ) < (vals.length : ℚ) := by
    exact_mod_cast Nat.pos_of_ne_zero hlen
  have hsum0 : 0 ≤ vals.sum := List.sum_nonneg fun v hv => (hb v hv).1
  have hsum1 : vals.sum ≤ (vals.length : ℚ) := by
    have := List.sum_le_card_nsmul vals 1 fun v hv => (hb v hv).2
    simpa using this
  refine ⟨by simp [engagementScore, hlen], div_nonneg hsum0 hlpos.le, ?_⟩
  exact (div_le_one hlpos).mpr hsum1

/-- Witness for C2 amended: the mean of the two-element mapping with
values 1/2 and 1. -/
theorem engagement_score_mean_bounds_witness :
    engagementScore [(1:ℚ)/2, 1] =
      some (List.sum [(1:ℚ)/2, 1] / ((List.length [(1:ℚ)/2, 1] : ℕ) : ℚ)) ∧
    0 ≤ List.sum [(1:ℚ)/2, 1] / ((List.length [(1:ℚ)/2, 1] : ℕ) : ℚ) ∧
    List.sum [(1:ℚ)/2, 1] / ((List.length [(1:ℚ)/2, 1] : ℕ) : ℚ) ≤ 1 :=
  engagement_score_mean_bounds.1 [(1:ℚ)/2, 1] (by simp)
    (by intro v hv; fin_cases hv <;> norm_num)

/-- C6: the recommendation generator evaluates its four checks
independently and appends the notices in the fixed source order; at
engagement 0.2, risk 0.6 and analysis text "User account is currently
Inactive" it returns exactly the low-engagement, high-risk and inactivity
notices, in that order, and no privacy notice. -/
theorem recommendations_independent_checks :
    (∀ (e r : ℚ) (analysis : String),
      generateRecommendations e r analysis =
        (if e < 1/2 then [lowEngagementNotice] else []) ++
        (if 1/2 < r then [highRiskNotice] else []) ++
        (if occursIn "private".toList (lowerChars analysis) then [privateAccountNotice] else []) ++
        (if occursIn "inactive".toList (lowerChars analysis) then [inactiveAccountNotice] else [])) ∧
    generateRecommendations (1/5) (3/5) "User account is currently Inactive" =
      [lowEngagementNotice, highRiskNotice, inactiveAccountNotice] := by
  constructor
  · intro e r analysis
    simp only [generateRecommendations]
    split_ifs <;> simp
  · norm_num [generateRecommendations]
    decide

/-- C7 (code bug): `_calculate_risk_score` does not compute the intended
weighted mean - it takes `np.mean` over five weight-scaled terms, so on
the stub metrics (0.5, 0.6, 0.4, 0.8, 0.9) it returns 0.15, while the
spec's weighted mean of the four sub-signals with the configured weights
(which do sum to 1.0) gives 0.67. -/
theorem risk_score_np_mean_bug :
    calculateRiskScore (gatherMetrics "profile") = 3/20 ∧
    specRiskWeightedMean (1/2) (3/5) (4/5) (9/10) = 67/100 ∧
    calculateRiskScore (gatherMetrics "profile") ≠
      specRiskWeightedMean (1/2) (3/5) (4/5) (9/10) ∧
    weights WeightKey.activity + weights WeightKey.content +
      weights WeightKey.interaction + weights WeightKey.age = 1 := by
  norm_num [calculateRiskScore, gatherMetrics, specRiskWeightedMean, weights]

/-- C9: for profile metrics with all five fields in [0,1] the risk score
of `_calculate_risk_score` lies in [0, 0.24] (the plain mean over five
weight-scaled terms with weights at most 0.3), hence below the 0.7 REMOVE
threshold; `analyze_profile_risk` always returns 0.15 < 0.7. -/
theorem risk_score_bounded_below_remove_threshold :
    (∀ m : ProfileMetrics,
      0 ≤ m.authenticity_score → m.authenticity_score ≤ 1 →
      0 ≤ m.engagement_potential → m.engagement_potential ≤ 1 →
      0 ≤ m.risk_level → m.risk_level ≤ 1 →
      0 ≤ m.interaction_pattern → m.interaction_pattern ≤ 1 →
      0 ≤ m.account_age → m.account_age ≤ 1 →
      0 ≤ calculateRiskScore m ∧ calculateRiskScore m ≤ 6/25 ∧
        calculateRiskScore m < 7/10) ∧
    (∀ profile_id : String,
      analyzeProfileRisk profile_id = 3/20 ∧ analyzeProfileRisk profile_id < 7/10) := by
  constructor
  · intro m h1 h2 h3 h4 h5 h6 h7 h8 h9 h10
    have hs : calculateRiskScore m =
        (m.authenticity_score * (3/10) + m.engagement_potential * (3/10) +
         m.risk_level * (1/5) + m.interaction_pattern * (1/5) +
         m.account_age * (1/5)) / 5 := by
      simp [calculateRiskScore, weights]
      ring
    rw [hs]
    refine ⟨by linarith, by linarith, by linarith⟩
  · intro profile_id
    norm_num [analyzeProfileRisk, gatherMetrics, calculateRiskScore, weights]

/-- Witness for C9: the bound applied to the stub metrics of
`_gather_metrics`. -/
theorem risk_score_bounded_witness :
    0 ≤ calculateRiskScore ⟨1/2, 3/5, 2/5, 4/5, 9/10⟩ ∧
    calculateRiskScore ⟨1/2, 3/5, 2/5, 4/5, 9/10⟩ ≤ 6/25 ∧
    calculateRiskScore ⟨1/2, 3/5, 2/5, 4/5, 9/10⟩ < 7/10 :=
  risk_score_bounded_below_remove_threshold.1 ⟨1/2, 3/5, 2/5, 4/5, 9/10⟩
    (by norm_num) (by norm_num) (by norm_num) (by norm_num) (by norm_num)
    (by norm_num) (by norm_num) (by norm_num) (by norm_num) (by norm_num)

/-- Unfolding lemma for `retryLoop`: a successful attempt with no
`retry_on_result` predicate returns the value immediately. -/
theorem retryLoop_ok_noRes {ε α : Type} (cfg : RetryConfig ε α) (op : Nat → Except ε α)
    (fuel attempt : Nat) (lE : Option ε) (lR : Option α) (v : α)
    (h : op attempt = Except.ok v) (hres : cfg.retryOnRes = none) :
    retryLoop cfg op (fuel + 1) attempt lE lR =
      ⟨RetryOutcome.returned (some v), [], []⟩ := by
  simp only [retryLoop]
  rw [h, hres]

/-- Unfolding lemma for `retryLoop`: a caught, not-rejected error with
attempts remaining records the `on_retry` call and the backoff sleep and
moves on to the next attempt. -/
theorem retryLoop_err_retry {ε α : Type} (cfg : RetryConfig ε α) (op : Nat → Except ε α)
    (fuel attempt : Nat) (lE : Option ε) (lR : Option α) (e : ε)
    (h : op attempt = Except.error e) (hc : cfg.isCaught e = true)
    (hrej : (match cfg.retryOnExc with | some p => !(p e) | none => false) = false)
    (hf : 0 < fuel) :
    retryLoop cfg op (fuel + 1) attempt lE lR =
      addCall (e, attempt + 1)
        (addSleep (attempt, calculateDelay attempt cfg.baseDelay cfg.maxDelay (cfg.jitter attempt))
          (retryLoop cfg op fuel (attempt + 1) (some e) lR)) := by
  simp only [retryLoop]
  rw [h]
  simp [hc, hrej, hf]

/-- Unfolding lemma for `retryLoop`: an error not matching the `except`
clause propagates at once, with no callback and no sleep. -/
theorem retryLoop_err_uncaught {ε α : Type} (cfg : RetryConfig ε α) (op : Nat → Except ε α)
    (fuel attempt : Nat) (lE : Option ε) (lR : Option α) (e : ε)
    (h : op attempt = Except.error e) (hc : cfg.isCaught e = false) :
    retryLoop cfg op (fuel + 1) attempt lE lR = ⟨RetryOutcome.raised e, [], []⟩ := by
  simp only [retryLoop]
  rw [h]
  simp [hc]

/-- C3: with `max_attempts = 3` and retryable failures on attempts 1 and
2 followed by success on attempt 3, the retry wrapper returns the
attempt-3 value and invokes the `on_retry` callback exactly twice, with
attempt numbers 1 and 2. -/
theorem async_retry_two_failures_then_success {ε α : Type} (b M : ℚ) (j : Nat → ℚ)
    (isC : ε → Bool) (op : Nat → Except ε α) (e0 e1 : ε) (v : α)
    (h0 : op 0 = Except.error e0) (h1 : op 1 = Except.error e1) (h2 : op 2 = Except.ok v)
    (hc0 : isC e0 = true) (hc1 : isC e1 = true) :
    (asyncRetry ⟨3, b, M, isC, none, none, j⟩ op).outcome = RetryOutcome.returned (some v) ∧
    (asyncRetry ⟨3, b, M, isC, none, none, j⟩ op).onRetryCalls = [(e0, 1), (e1, 2)] := by
  have key : asyncRetry (⟨3, b, M, isC, none, none, j⟩ : RetryConfig ε α) op =
      addCall (e0, 1) (addSleep (0, calculateDelay 0 b M (j 0))
        (addCall (e1, 2) (addSleep (1, calculateDelay 1 b M (j 1))
          ⟨RetryOutcome.returned (some v), [], []⟩))) := by
    show retryLoop (⟨3, b, M, isC, none, none, j⟩ : RetryConfig ε α) op (2 + 1) 0 none none = _
    rw [retryLoop_err_retry _ op 2 0 none none e0 h0 hc0 rfl (by norm_num)]
    rw [show (2 : Nat) = 1 + 1 from rfl,
      retryLoop_err_retry _ op 1 1 (some e0) none e1 h1 hc1 rfl (by norm_num)]
    rw [show (1 : Nat) = 0 + 1 from rfl,
      retryLoop_ok_noRes _ op 0 2 (some e1) none v h2 rfl]
  rw [key]
  constructor <;> rfl

/-- Witness for C3: a concrete operation failing twice, then returning 5. -/
theorem async_retry_two_failures_witness :
    (asyncRetry (⟨3, 1, 10, fun _ => true, none, none, fun _ => 0⟩ : RetryConfig Nat Nat)
      (fun n => if n = 0 then Except.error 7 else
        if n = 1 then Except.error 8 else Except.ok 5)).outcome =
      RetryOutcome.returned (some 5) ∧
    (asyncRetry (⟨3, 1, 10, fun _ => true, none, none, fun _ => 0⟩ : RetryConfig Nat Nat)
      (fun n => if n = 0 then Except.error 7 else
        if n = 1 then Except.error 8 else Except.ok 5)).onRetryCalls = [(7, 1), (8, 2)] :=
  async_retry_two_failures_then_success 1 10 (fun _ => 0) (fun _ => true)
    (fun n => if n = 0 then Except.error 7 else
      if n = 1 then Except.error 8 else Except.ok 5) 7 8 5 rfl rfl rfl rfl rfl

/-- C4: an error whose kind is not in the configured retryable exception
set propagates on the first attempt, with no sleep, no callback, and no
second invocation of the wrapped operation (the run only depends on the
operation's attempt-0 behaviour). -/
theorem async_retry_uncaught_propagates {ε α : Type} (m : Nat) (b M : ℚ) (j : Nat → ℚ)
    (isC : ε → Bool) (rOE : Option (ε → Bool)) (rOR : Option (α → Bool))
    (op : Nat → Except ε α) (e : ε)
    (h0 : op 0 = Except.error e) (hc : isC e = false) :
    asyncRetry ⟨m + 1, b, M, isC, rOE, rOR, j⟩ op = ⟨RetryOutcome.raised e, [], []⟩ ∧
    (∀ op' : Nat → Except ε α, op' 0 = Except.error e →
      asyncRetry ⟨m + 1, b, M, isC, rOE, rOR, j⟩ op' =
        asyncRetry ⟨m + 1, b, M, isC, rOE, rOR, j⟩ op) := by
  have hmain : ∀ f : Nat → Except ε α, f 0 = Except.error e →
      asyncRetry ⟨m + 1, b, M, isC, rOE, rOR, j⟩ f = ⟨RetryOutcome.raised e, [], []⟩ := by
    intro f hf
    show retryLoop (⟨m + 1, b, M, isC, rOE, rOR, j⟩ : RetryConfig ε α) f (m + 1) 0 none none = _
    exact retryLoop_err_uncaught _ f m 0 none none e hf hc
  exact ⟨hmain op h0, fun op' h' => by rw [hmain op' h', hmain op h0]⟩

/-- Witness for C4: a non-retryable error with one attempt configured. -/
theorem async_retry_uncaught_propagates_witness :
    asyncRetry (⟨1, 1, 10, fun _ => false, none, none, fun _ => 0⟩ : RetryConfig Nat Nat)
      (fun _ => Except.error 9) = ⟨RetryOutcome.raised 9, [], []⟩ :=
  (async_retry_uncaught_propagates 0 1 10 (fun _ => 0) (fun _ => false) none none
    (fun _ => Except.error 9) 9 rfl rfl).1

/-- C5: after a retryable failure on the attempt with 0-based index
`attempt` while more attempts remain, the wrapper's next suspension lasts
`min(base_delay * 2^attempt + jitter, max_delay)` with the jitter drawn
from [0,1). -/
theorem retry_backoff_sleep_delay {ε α : Type} (cfg : RetryConfig ε α)
    (op : Nat → Except ε α) (f attempt : Nat) (lE : Option ε) (lR : Option α) (e : ε)
    (h : op attempt = Except.error e) (hc : cfg.isCaught e = true)
    (hrej : (match cfg.retryOnExc with | some p => !(p e) | none => false) = false)
    (hj0 : 0 ≤ cfg.jitter attempt) (hj1 : cfg.jitter attempt < 1) :
    (retryLoop cfg op (f + 1 + 1) attempt lE lR).sleeps.head? =
      some (attempt, min (cfg.baseDelay * 2 ^ attempt + cfg.jitter attempt) cfg.maxDelay) ∧
    0 ≤ cfg.jitter attempt ∧ cfg.jitter attempt < 1 := by
  refine ⟨?_, hj0, hj1⟩
  rw [retryLoop_err_retry cfg op (f + 1) attempt lE lR e h hc hrej (Nat.succ_pos f)]
  simp [addCall, addSleep, calculateDelay]

/-- Witness for C5: a concrete failure at attempt 0 with jitter 1/2. -/
theorem retry_backoff_sleep_delay_witness :
    (retryLoop (⟨3, 1, 10, fun _ => true, none, none, fun _ => 1/2⟩ : RetryConfig Nat Nat)
      (fun _ => Except.error 4) 2 0 none none).sleeps.head? =
      some (0, min ((1 : ℚ) * 2 ^ 0 + 1/2) 10) ∧
    (0 : ℚ) ≤ 1/2 ∧ (1 : ℚ)/2 < 1 :=
  retry_backoff_sleep_delay
    (⟨3, 1, 10, fun _ => true, none, none, fun _ => 1/2⟩ : RetryConfig Nat Nat)
    (fun _ => Except.error 4) 0 0 none none 4 rfl rfl rfl (by norm_num) (by norm_num)

/-- C10: with `max_attempts = 0` the loop body never runs, no exception
and no result are recorded, and the wrapper returns `None` without ever
invoking the wrapped operation. -/
theorem async_retry_zero_attempts {ε α : Type} (b M : ℚ) (j : Nat → ℚ)
    (isC : ε → Bool) (rOE : Option (ε → Bool)) (rOR : Option (α → Bool)) :
    (∀ op : Nat → Except ε α,
      asyncRetry ⟨0, b, M, isC, rOE, rOR, j⟩ op =
        ⟨RetryOutcome.returned none, [], []⟩) ∧
    (∀ op op' : Nat → Except ε α,
      asyncRetry ⟨0, b, M, isC, rOE, rOR, j⟩ op =
        asyncRetry ⟨0, b, M, isC, rOE, rOR, j⟩ op') :=
  ⟨fun _ => rfl, fun _ _ => rfl⟩

/-- Counterexample to C8: `audit_follower` on a record with no username
does not surface a validation failure - it substitutes "Unknown" and
produces a full audit result. -/
theorem audit_missing_username_still_audits :
    auditFollower (fun _ => Except.ok ⟨4/5, []⟩)
      (fun _ => Except.ok ⟨1/10, "Standard profile with normal activity", 1⟩) ⟨none⟩ =
      Except.ok ⟨"Unknown", 4/5, 1/10, EvaluationAction.KEEP,
        "Standard profile with normal activity", []⟩ := by
  simp [auditFollower]
  refine ⟨by norm_num [determineAction], ?_⟩
  norm_num [generateRecommendations]
  decide

/-- C8 amended: a follower record missing the username field is not
rejected - when both evaluators succeed the pipeline produces an audit
result with the substituted username "Unknown"; the
`validate_required_fields` helper would raise for the missing username
but the pipeline never invokes it. -/
theorem audit_missing_username_amended :
    (∀ (checkEngagement : FollowerData → Except String EngagementResult)
       (analyzeProfile : FollowerData → Except String ProfileResult)
       (fd : FollowerData) (er : EngagementResult) (pr : ProfileResult),
      fd.username = none →
      checkEngagement fd = Except.ok er →
      analyzeProfile fd = Except.ok pr →
      auditFollower checkEngagement analyzeProfile fd =
        Except.ok ⟨"Unknown", er.score, pr.risk_score,
          determineAction er.score pr.risk_score, pr.analysis,
          generateRecommendations er.score pr.risk_score pr.analysis⟩) ∧
    validateRequiredFields [] ["username"] =
      Except.error "Missing required fields: username" := by
  constructor
  · intro cE aP fd er pr hu hE hP
    simp [auditFollower, hu, hE, hP]
  · rfl

/-- Witness for C8 amended: concrete successful evaluators on a record
with no username. -/
theorem audit_missing_username_amended_witness :
    auditFollower (fun _ => Except.ok ⟨1/2, []⟩)
      (fun _ => Except.ok ⟨1/2, "ok", 1⟩) ⟨none⟩ =
      Except.ok ⟨"Unknown", 1/2, 1/2, determineAction (1/2) (1/2), "ok",
        generateRecommendations (1/2) (1/2) "ok"⟩ :=
  audit_missing_username_amended.1 (fun _ => Except.ok ⟨1/2, []⟩)
    (fun _ => Except.ok ⟨1/2, "ok", 1⟩) ⟨none⟩ ⟨1/2, []⟩ ⟨1/2, "ok", 1⟩ rfl rfl rfl
